import Mathlib

/-!
Verification development for the async_unzip unzipper module
(src/async_unzip/unzipper.py). Python byte strings are modelled as
List Nat, file objects as a ByteStream (backing bytes plus a cursor),
and raised exceptions as an explicit PyError value carried in Except.
The zlib-family decompression backends are external C libraries; they
are modelled parametrically by a Backend record whose tryDecode field
records, for each window-bits value, whether a fresh decoder accepts a
given buffer without raising a decode error.
-/

namespace AsyncUnzip

/-- Python exception classes raised (directly or via propagation) by the
unzipper module. In the source, format failures and truncation failures
both use zipfile.BadZipFile; window-probe exhaustion uses zlib.error;
unknown backends use ValueError; a missing async file backend uses
RuntimeError. -/
inductive PyExnClass where
  | BadZipFile
  | ZlibError
  | ValueError
  | RuntimeError
  deriving DecidableEq, Repr

/-- A raised Python exception: its class together with its message. -/
inductive PyError where
  | badZipFile (msg : String)
  | zlibError (msg : String)
  | valueError (msg : String)
  | runtimeError (msg : String)
  deriving DecidableEq, Repr

/-- The Python exception class of a raised error value. -/
def PyError.cls : PyError → PyExnClass
  | .badZipFile _ => .BadZipFile
  | .zlibError _ => .ZlibError
  | .valueError _ => .ValueError
  | .runtimeError _ => .RuntimeError

/-- The specification's FormatError taxon corresponds in the source to
the zipfile.BadZipFile exception class: unzip raises a bare BadZipFile
for a non-archive input and _read_local_header raises BadZipFile for an
invalid local header. -/
def isFormatErrorClass (e : PyError) : Bool :=
  match e with
  | .badZipFile _ => true
  | _ => false

/-- A readable byte source: the backing bytes plus a cursor position.
Models an open file handle (or any object with an async read method)
as used by the unzipper. -/
structure ByteStream where
  data : List Nat
  pos : Nat
  deriving DecidableEq, Repr

/-- Model of a file read(n): returns up to n bytes starting at the
cursor and advances the cursor by the number of bytes returned. A read
past the end of the data returns fewer bytes (possibly none), exactly
as a file read near end-of-file does. -/
def streamRead (s : ByteStream) (n : Nat) : List Nat × ByteStream :=
  let buf := (s.data.drop s.pos).take n
  (buf, { data := s.data, pos := s.pos + buf.length })

/-- Number of bytes still available after the cursor. -/
def ByteStream.avail (s : ByteStream) : Nat := s.data.length - s.pos

/-- Constant DEFAULT_READ_BUFFER_SIZE = 64 * 1024 from the source. -/
def DEFAULT_READ_BUFFER_SIZE : Int := 64 * 1024

/-- Python truthiness of the user_buffer argument as an optional
integer: None and 0 are falsy, every other integer is truthy. -/
def truthyInt : Option Int → Bool
  | none => false
  | some u => u != 0

/-- Embeds _select_buffer_size (unzipper.py lines 31-39). -/
def selectBufferSize (entrySize : Int) (userBuffer : Option Int) : Int :=
  if truthyInt userBuffer then
    let size := userBuffer.getD 0
    if size > 0 then size else DEFAULT_READ_BUFFER_SIZE
  else if entrySize < 1000000 then 32 * 1024
  else if entrySize > 100000000 then 256 * 1024
  else DEFAULT_READ_BUFFER_SIZE

/-- A compiled regular expression, modelled by its source text together
with its span-matching relation: matchesAt s i j holds when the pattern
matches the slice of s from character position i (inclusive) to j
(exclusive). The Python re engine itself is external to this
development; only the match relation it induces is used. -/
structure RePattern where
  text : String
  matchesAt : String → Nat → Nat → Bool

/-- Python re search semantics: the pattern matches some slice of the
string, anchored nowhere. -/
def RePattern.doSearch (p : RePattern) (s : String) : Bool :=
  (List.range (s.length + 1)).any fun i =>
    (List.range (s.length + 1)).any fun j =>
      decide (i ≤ j) && p.matchesAt s i j

/-- Python re fullmatch semantics: the pattern matches the entire
string. -/
def RePattern.fullMatch (p : RePattern) (s : String) : Bool :=
  p.matchesAt s 0 s.length

/-- A literal-text pattern: it matches exactly the slices whose
characters equal its text. For such a pattern, search semantics is
substring containment. -/
def literalPattern (t : String) : RePattern :=
  { text := t
    matchesAt := fun s i j =>
      decide (((s.data.drop i).take (j - i)) = t.data) }

/-- Embeds _compile_patterns (unzipper.py lines 156-164). The argument
is None, a single pattern, or a list of patterns; re.compile is
modelled by the already-compiled RePattern. Python truthiness: None, an
empty pattern string, and an empty list are all falsy and yield None. -/
def compilePatterns : Option (Sum RePattern (List RePattern)) → Option (List RePattern)
  | none => none
  | some (.inl p) => if p.text = "" then none else some [p]
  | some (.inr ps) => if ps.isEmpty then none else some ps

/-- Embeds the whitelist construction in unzip: set(files) if files
else None. A falsy files argument (None or an empty list) yields None. -/
def buildWhitelist : Option (List String) → Option (List String)
  | none => none
  | some fs => if fs.isEmpty then none else some fs

/-- Embeds _should_extract (unzipper.py lines 167-173). Python
truthiness of the whitelist set and the compiled pattern list: None and
empty are both falsy, so an empty whitelist or an empty pattern list
counts as no constraint. -/
def shouldExtract (fileName : String) (whitelist : Option (List String))
    (regexPatterns : Option (List RePattern)) : Bool :=
  let matchesWhitelist :=
    match whitelist with
    | none => true
    | some wl => wl.isEmpty || wl.contains fileName
  let matchesRegex :=
    match regexPatterns with
    | none => true
    | some ps => ps.isEmpty || ps.any fun p => p.doSearch fileName
  matchesWhitelist && matchesRegex

/-- Selection predicate transcribed from the words of claim C5: the
entry is selected iff (the whitelist is absent or the name is a member)
and (the filter list is absent or some pattern search-matches). Present
but empty collections here impose their literal constraint. -/
def claimSelected (fileName : String) (whitelist : Option (List String))
    (regexPatterns : Option (List RePattern)) : Bool :=
  (match whitelist with
   | none => true
   | some wl => wl.contains fileName)
  && (match regexPatterns with
      | none => true
      | some ps => ps.any fun p => p.doSearch fileName)

/-- Selection predicate for the amended claim C5: an absent or empty
whitelist and an absent or empty filter list are each treated as always
satisfied; the two constraints are conjoined. -/
def claimSelectedAmended (fileName : String) (whitelist : Option (List String))
    (regexPatterns : Option (List RePattern)) : Bool :=
  (match whitelist with
   | none => true
   | some wl => wl.isEmpty || wl.contains fileName)
  && (match regexPatterns with
      | none => true
      | some ps => ps.isEmpty || ps.any fun p => p.doSearch fileName)

/-- Constant LOCAL_FILE_HEADER_SIZE = 30 from the source. -/
def LOCAL_FILE_HEADER_SIZE : Nat := 30

/-- Constant LOCAL_FILE_HEADER_SIGNATURE = b"PK\x03\x04" from the
source. -/
def LOCAL_FILE_HEADER_SIGNATURE : List Nat := [0x50, 0x4B, 0x03, 0x04]

/-- Embeds int.from_bytes(bs, "little"). -/
def intFromBytesLE (bs : List Nat) : Nat :=
  bs.foldr (fun b acc => b + 256 * acc) 0

/-- Embeds _read_local_header (unzipper.py lines 176-196). The Python
coroutine returns None; its observable effect is the advanced cursor,
so the embedding returns the cursor after the header, filename and
extra-field reads. Debug printing is omitted. -/
def readLocalHeader (src : ByteStream) (fileName : String) :
    Except PyError ByteStream :=
  let r := streamRead src LOCAL_FILE_HEADER_SIZE
  let header := r.1
  if header.length ≠ LOCAL_FILE_HEADER_SIZE ∨
      header.take 4 ≠ LOCAL_FILE_HEADER_SIGNATURE then
    .error (.badZipFile ("Invalid local header for " ++ fileName))
  else
    let nameLength := intFromBytesLE ((header.drop 26).take 2)
    let extraLength := intFromBytesLE ((header.drop 28).take 2)
    let s1 := r.2
    let s2 := if nameLength ≠ 0 then (streamRead s1 nameLength).2 else s1
    let s3 := if extraLength ≠ 0 then (streamRead s2 extraLength).2 else s2
    .ok s3

/-- Filename length field of the local header at the cursor: bytes
26-27, little-endian. -/
def headerNameLen (s : ByteStream) : Nat :=
  intFromBytesLE (((s.data.drop s.pos).take 30 |>.drop 26).take 2)

/-- Extra-field length field of the local header at the cursor: bytes
28-29, little-endian. -/
def headerExtraLen (s : ByteStream) : Nat :=
  intFromBytesLE (((s.data.drop s.pos).take 30 |>.drop 28).take 2)

/-- Constant MAX_WBITS = 15 from zlib. -/
def MAX_WBITS : Int := 15

/-- Window-bits value for the gzip-wrapped variant: MAX_WBITS | 16. -/
def gzipWindowBits : Int := ((15 ||| 16 : Nat) : Int)

/-- The fixed probe order of _probe_window_bits (unzipper.py line 212):
raw deflate (negative window size), gzip-wrapped (window size OR 16),
zlib-wrapped (plain positive window size). -/
def windowBitsCandidates : List Int := [-MAX_WBITS, gzipWindowBits, MAX_WBITS]

/-- Embeds _probe_window_bits (unzipper.py lines 210-222),
parameterised by the probe outcome of the backend: tryDecode w buf is
true exactly when factory(w).decompress(buf) raises no decode error
from the backend's error set. Returns the first candidate accepted, or
raises zlib.error when none is. -/
def probeWindowBits (tryDecode : Int → List Nat → Bool) (buf : List Nat) :
    Except PyError Int :=
  match windowBitsCandidates.find? (fun w => tryDecode w buf) with
  | some w => .ok w
  | none => .error (.zlibError "Unable to detect compression window size")

/-- The process-wide _WINDOW_BITS_CACHE dictionary, modelled as an
association list in which the most recent binding for a key shadows
older ones. -/
abbrev WbitsCache : Type := List (String × Int)

/-- Dictionary lookup: cache.get(key). -/
def cacheGet (c : WbitsCache) (k : String) : Option Int :=
  match List.find? (fun e => e.1 = k) c with
  | some e => some e.2
  | none => none

/-- Dictionary assignment: cache[key] = value. -/
def cacheSet (c : WbitsCache) (k : String) (v : Int) : WbitsCache :=
  (k, v) :: c

/-- Python truthiness of the cache_key argument: None and the empty
string are falsy. -/
def keyTruthy : Option String → Bool
  | none => false
  | some k => k != ""

/-- Result of _detect_window_bits: the chosen window bits, the cache
after the call, and whether _probe_window_bits actually ran (false when
the cached value was returned). -/
structure DetectOutcome where
  wbits : Int
  cache : WbitsCache
  probed : Bool

/-- Embeds _detect_window_bits (unzipper.py lines 225-246): consult the
cache when the key is truthy, otherwise probe, and store a successful
probe result under a truthy key. -/
def detectWindowBits (tryDecode : Int → List Nat → Bool) (buf : List Nat)
    (cacheKey : Option String) (cache : WbitsCache) :
    Except PyError DetectOutcome :=
  let cached :=
    if keyTruthy cacheKey then cacheGet cache (cacheKey.getD "") else none
  match cached with
  | some v => .ok ⟨v, cache, false⟩
  | none =>
    match probeWindowBits tryDecode buf with
    | .error e => .error e
    | .ok w =>
      let cache1 :=
        if keyTruthy cacheKey then cacheSet cache (cacheKey.getD "") w
        else cache
      .ok ⟨w, cache1, true⟩

/-- Cache evolution of one _detect_window_bits call: a failed probe
raises before the store statement, leaving the cache unchanged. -/
def detectStepCache (tryDecode : Int → List Nat → Bool)
    (op : List Nat × Option String) (c : WbitsCache) : WbitsCache :=
  match detectWindowBits tryDecode op.1 op.2 c with
  | .error _ => c
  | .ok out => out.cache

/-- Cache evolution across a sequence of detection calls within one
run (the calls are sequential: _detect_window_bits suspends at no await
point between its cache read and its cache write). -/
def runDetections (tryDecode : Int → List Nat → Bool)
    (ops : List (List Nat × Option String)) (c : WbitsCache) : WbitsCache :=
  ops.foldl (fun acc op => detectStepCache tryDecode op acc) c

/-- Embeds _write_stored_entry (unzipper.py lines 199-207). Returns the
chunks written to the sink in order, the sizes requested from the
source by each read, and the final source cursor. -/
def writeStoredEntry (src : ByteStream) (remaining readBlock : Nat)
    (fileName : String) :
    Except PyError (List (List Nat) × List Nat × ByteStream) :=
  if remaining = 0 then .ok ([], [], src)
  else
    let chunkSize := if remaining > readBlock then readBlock else remaining
    let r := streamRead src chunkSize
    if hq : r.1 = [] then
      .error (.badZipFile ("Incomplete stored entry for " ++ fileName))
    else
      match writeStoredEntry r.2 (remaining - r.1.length) readBlock fileName with
      | .error e => .error e
      | .ok (ws, reads, s2) => .ok (r.1 :: ws, chunkSize :: reads, s2)
termination_by remaining
decreasing_by
  exact Nat.sub_lt (Nat.pos_of_ne_zero (by assumption))
    (List.length_pos.mpr hq)

/-- An abstract deflate-family decompression backend. St is the decoder
state type, factory builds a fresh decoder for a window-bits value,
decompress and flush are the (exception-free) decode operations, and
tryDecode gives the probe outcome used by _probe_window_bits: whether a
fresh decoder for the given window bits accepts the given buffer
without raising. The concrete zlib, zlib-ng and isal implementations
are external C libraries abstracted by this record; decode errors they
may raise mid-stream simply propagate in the source and are outside the
claims settled here. -/
structure Backend where
  St : Type
  factory : Int → St
  decompress : St → List Nat → St × List Nat
  flush : St → List Nat
  tryDecode : Int → List Nat → Bool

/-- A degenerate backend whose decoder echoes its input and accepts
every probe; used to instantiate theorems at concrete inputs. -/
def trivialBackend : Backend :=
  { St := Unit
    factory := fun _ => ()
    decompress := fun _ buf => ((), buf)
    flush := fun _ => []
    tryDecode := fun _ _ => true }

/-- Embeds the decode loop of _write_compressed_entry (unzipper.py
lines 286-300), including the trailing decoder flush that follows the
loop. Returns the chunks written, the sizes requested by the in-loop
reads, and the final source cursor. In the source, when a read inside
the loop returns no bytes the preceding subtraction leaves remaining
unchanged and still positive (the loop is only entered with remaining
positive), so an empty in-loop read always raises. -/
def compressedLoop (B : Backend) (fileName : String) (d : B.St)
    (src : ByteStream) (buf : List Nat) (remaining readBlock : Nat) :
    Except PyError (List (List Nat) × List Nat × ByteStream) :=
  if buf = [] then .ok ([B.flush d], [], src)
  else
    let step := B.decompress d buf
    if remaining = 0 then .ok ([step.2, B.flush step.1], [], src)
    else
      let chunkSize := if remaining > readBlock then readBlock else remaining
      let r := streamRead src chunkSize
      if hq : r.1 = [] then
        .error (.badZipFile ("Incomplete compressed entry for " ++ fileName))
      else
        match compressedLoop B fileName step.1 r.2 r.1
            (remaining - r.1.length) readBlock with
        | .error e => .error e
        | .ok (ws, reads, s2) => .ok (step.2 :: ws, chunkSize :: reads, s2)
termination_by remaining
decreasing_by
  exact Nat.sub_lt (Nat.pos_of_ne_zero (by assumption))
    (List.length_pos.mpr hq)

/-- Result of _write_compressed_entry: the chunks written to the sink,
the sizes requested from the source, the final source cursor, whether
_probe_window_bits ran, whether a decoder was constructed via
factory(window_bits), and the window-bits cache after the call. -/
structure CompressOutcome where
  written : List (List Nat)
  reads : List Nat
  stream : ByteStream
  probed : Bool
  decoderBuilt : Bool
  cache : WbitsCache

/-- Embeds _write_compressed_entry (unzipper.py lines 251-300): an
empty entry writes one empty chunk and returns before window detection;
otherwise the first chunk is read (an empty first read raises), window
bits are detected through the cache, a decoder is constructed, and the
decode loop runs to the trailing flush. -/
def writeCompressedEntry (B : Backend) (src : ByteStream)
    (remaining readBlock : Nat) (fileName : String)
    (cacheKey : Option String) (cache : WbitsCache) :
    Except PyError CompressOutcome :=
  if remaining = 0 then
    .ok { written := [[]], reads := [], stream := src, probed := false,
          decoderBuilt := false, cache := cache }
  else
    let firstChunkSize := if remaining > readBlock then readBlock else remaining
    let r := streamRead src firstChunkSize
    if r.1 = [] then
      .error (.badZipFile ("Incomplete compressed entry for " ++ fileName))
    else
      match detectWindowBits B.tryDecode r.1 cacheKey cache with
      | .error e => .error e
      | .ok dres =>
        match compressedLoop B fileName (B.factory dres.wbits) r.2 r.1
            (remaining - r.1.length) readBlock with
        | .error e => .error e
        | .ok (ws, reads, s2) =>
          .ok { written := ws, reads := firstChunkSize :: reads,
                stream := s2, probed := dres.probed, decoderBuilt := true,
                cache := dres.cache }

/-- Lowercasing of one character as Python str.lower() does on ASCII;
the backend identifiers involved are ASCII. -/
def pyLowerChar (c : Char) : Char :=
  if 'A' ≤ c ∧ c ≤ 'Z' then Char.ofNat (c.toNat + 32) else c

/-- Lowercasing of a string as Python str.lower() does on ASCII. -/
def pyLower (s : String) : String := String.mk (s.data.map pyLowerChar)

/-- Constant DEFAULT_BACKEND = "zlib" from the source. -/
def DEFAULT_BACKEND : String := "zlib"

/-- The identifiers in _AVAILABLE_BACKENDS in registration order:
"zlib" always, then "zlib-ng" and "python-isal" when the optional
modules are importable in the running environment (unzipper.py lines
62-105). -/
def availableBackends (zlibng isal : Bool) : List String :=
  "zlib" :: ((if zlibng then ["zlib-ng"] else []) ++
    (if isal then ["python-isal"] else []))

/-- Embeds _resolve_backend (unzipper.py lines 144-153): a falsy name
(None or the empty string) is replaced by the default, the name is
lowercased, and an identifier missing from the registry raises a
ValueError whose message lists the available identifiers. The factory
and error set returned alongside the name in the source are runtime
objects of the chosen backend and are not part of this result. -/
def resolveBackend (registry : List String) (name : Option String) :
    Except PyError String :=
  let given := match name with
    | none => DEFAULT_BACKEND
    | some s => if s = "" then DEFAULT_BACKEND else s
  let backendName := pyLower given
  if registry.contains backendName then .ok backendName
  else
    .error (.valueError ("Unknown backend '" ++ backendName ++
      "'. Available: " ++ String.intercalate ", " registry))

/-- The validation steps at the head of unzip (unzipper.py lines
379-392), in program order. -/
inductive UnzipStep where
  | checkIsZipfile
  | checkAsyncOpen
  | resolveStep
  | listEntries
  deriving DecidableEq, Repr

/-- Whether a validation step reads the archive file: is_zipfile opens
and reads the archive to test its end-of-central-directory record, and
listing entries reads the central directory. -/
def UnzipStep.readsArchive : UnzipStep → Bool
  | .checkIsZipfile => true
  | .listEntries => true
  | _ => false

/-- Environment facts consulted by the head of unzip: whether
is_zipfile accepts the input and whether an async file backend was
importable. -/
structure UnzipEnv where
  isZip : Bool
  asyncOpenAvailable : Bool

/-- Embeds the validation sequence at the head of unzip (unzipper.py
lines 379-392): the is_zipfile check (which raises a bare BadZipFile on
failure), the async-backend check (RuntimeError on failure), backend
resolution, then the central-directory listing. Returns the steps
performed in order together with the error, if any, that aborts the
sequence. -/
def unzipPrelude (env : UnzipEnv) (registry : List String)
    (backend : Option String) : List UnzipStep × Option PyError :=
  if ¬ env.isZip then ([.checkIsZipfile], some (.badZipFile ""))
  else if ¬ env.asyncOpenAvailable then
    ([.checkIsZipfile, .checkAsyncOpen],
      some (.runtimeError
        "No async file backend available. Install aiofile or aiofiles."))
  else
    match resolveBackend registry backend with
    | .error e =>
      ([.checkIsZipfile, .checkAsyncOpen, .resolveStep], some e)
    | .ok _ =>
      ([.checkIsZipfile, .checkAsyncOpen, .resolveStep, .listEntries], none)

/-- Size-based chunk choice shared by the wording of claim C4: under
1,000,000 bytes 32 KiB, over 100,000,000 bytes 256 KiB, else 64 KiB. -/
def claimSizeBased (entrySize : Int) : Int :=
  if entrySize < 1000000 then 32 * 1024
  else if entrySize > 100000000 then 256 * 1024
  else 64 * 1024

/-- Buffer-size policy transcribed from the words of claim C4: an
explicit positive override is used exactly; otherwise the chunk size is
chosen by uncompressed entry size. -/
def claimBufferSize (entrySize : Int) (userBuffer : Option Int) : Int :=
  match userBuffer with
  | some u => if u > 0 then u else claimSizeBased entrySize
  | none => claimSizeBased entrySize

/-- Buffer-size policy of the amended claim C4: an explicit positive
override is used exactly; a nonzero override that is not positive falls
back to the 64 KiB default; an absent or zero override selects by
uncompressed entry size. -/
def claimBufferSizeAmended (entrySize : Int) (userBuffer : Option Int) : Int :=
  match userBuffer with
  | some u =>
    if u = 0 then claimSizeBased entrySize
    else if u > 0 then u else 64 * 1024
  | none => claimSizeBased entrySize

/-- A 31-byte source for claim C3: a valid 30-byte local header
declaring a 5-byte filename and no extra field, followed by a single
further byte, so the filename read can return only 1 of the 5 declared
bytes. -/
def shortTailData : List Nat :=
  [0x50, 0x4B, 0x03, 0x04] ++ List.replicate 22 0 ++ [5, 0, 0, 0] ++ [9]

/-- A 33-byte source for claim C3: a valid 30-byte local header
declaring a 2-byte filename and a 1-byte extra field, followed by
exactly those 3 bytes. -/
def fullHeaderData : List Nat :=
  [0x50, 0x4B, 0x03, 0x04] ++ List.replicate 22 0 ++ [2, 0, 1, 0] ++ [8, 8, 8]

theorem windowBitsCandidates_eq : windowBitsCandidates = [-15, 31, 15] := by
  decide

theorem streamRead_length (s : ByteStream) (n : Nat) :
    (streamRead s n).1.length = min n s.avail := by
  simp [streamRead, ByteStream.avail]

theorem streamRead_snd (s : ByteStream) (n : Nat) :
    (streamRead s n).2 = ⟨s.data, s.pos + (streamRead s n).1.length⟩ := rfl

/-- C1, amended: the probe tries raw deflate (-15), then gzip-wrapped
(15 OR 16 = 31), then zlib-wrapped (15), in that order, returning the
first variant whose fresh decoder accepts the prefix; a prefix accepted
only by its own framing's variant therefore yields that variant; if no
variant is accepted the probe fails with zlib.error (the backend decode
error class), not with BadZipFile. -/
theorem C1_window_detection (tryDecode : Int → List Nat → Bool)
    (buf : List Nat) :
    (tryDecode (-15) buf = true → probeWindowBits tryDecode buf = .ok (-15)) ∧
    (tryDecode (-15) buf = false → tryDecode 31 buf = true →
      probeWindowBits tryDecode buf = .ok 31) ∧
    (tryDecode (-15) buf = false → tryDecode 31 buf = false →
      tryDecode 15 buf = true → probeWindowBits tryDecode buf = .ok 15) ∧
    (tryDecode (-15) buf = false → tryDecode 31 buf = false →
      tryDecode 15 buf = false →
      probeWindowBits tryDecode buf =
        .error (.zlibError "Unable to detect compression window size")) := by
  have hg : gzipWindowBits = 31 := by decide
  have hw : MAX_WBITS = 15 := by decide
  refine ⟨fun h1 => ?_, fun h1 h2 => ?_, fun h1 h2 h3 => ?_,
    fun h1 h2 h3 => ?_⟩ <;>
    simp [probeWindowBits, windowBitsCandidates, List.find?, hg, hw, h1, *]

/-- Witness for C1_window_detection at a gzip-framed probe outcome. -/
theorem C1_window_detection_witness :
    probeWindowBits (fun w _ => decide (w = 31)) [] = .ok 31 :=
  (C1_window_detection (fun w _ => decide (w = 31)) []).2.1
    (by decide) (by decide)

/-- Counterexample to C1 as stated: when no variant is accepted, the
probe raises zlib.error, which is not of the BadZipFile class carrying
the specification's FormatError taxon. -/
theorem C1_counterexample :
    probeWindowBits (fun _ _ => false) [] =
      .error (.zlibError "Unable to detect compression window size") ∧
    isFormatErrorClass
      (.zlibError "Unable to detect compression window size") = false :=
  ⟨rfl, rfl⟩

/-- C4, amended: an explicit positive buffer override is used exactly;
a nonzero override that is not positive falls back to the 64 KiB
default; an absent or zero override selects by uncompressed entry size
(under 1,000,000 bytes 32 KiB, over 100,000,000 bytes 256 KiB, else
64 KiB). -/
theorem C4_buffer_policy (entrySize : Int) (userBuffer : Option Int) :
    selectBufferSize entrySize userBuffer =
      claimBufferSizeAmended entrySize userBuffer := by
  cases userBuffer with
  | none =>
    simp [selectBufferSize, claimBufferSizeAmended, claimSizeBased,
      truthyInt, DEFAULT_READ_BUFFER_SIZE]
  | some u =>
    by_cases h0 : u = 0
    · subst h0
      simp [selectBufferSize, claimBufferSizeAmended, claimSizeBased,
        truthyInt, DEFAULT_READ_BUFFER_SIZE]
    · by_cases hp : u > 0 <;>
        simp [selectBufferSize, claimBufferSizeAmended, claimSizeBased,
          truthyInt, DEFAULT_READ_BUFFER_SIZE, h0, hp]

/-- Counterexample to C4 as stated: a supplied negative buffer size is
truthy but not positive, so the code returns the 64 KiB default, while
the claim's otherwise-branch selects 32 KiB for a small entry. -/
theorem C4_counterexample :
    selectBufferSize 500 (some (-5)) = 65536 ∧
    claimBufferSize 500 (some (-5)) = 32768 ∧
    selectBufferSize 500 (some (-5)) ≠ claimBufferSize 500 (some (-5)) := by
  decide

/-- C5, amended: an entry is selected iff (the whitelist is absent or
empty, or the name is a member) and (the filter list is absent or
empty, or some pattern search-matches the name); the match uses re
search (substring) semantics, witnessed by a literal pattern that
search-matches a longer name it does not full-match. -/
theorem C5_selection :
    (∀ (fileName : String) (wl : Option (List String))
        (ps : Option (List RePattern)),
      shouldExtract fileName wl ps = claimSelectedAmended fileName wl ps) ∧
    shouldExtract "abc" none (some [literalPattern "b"]) = true ∧
    (literalPattern "b").fullMatch "abc" = false := by
  refine ⟨fun fileName wl ps => rfl, by decide, by decide⟩

/-- Counterexample to C5 as stated: a present but empty whitelist is
falsy in Python, so the code selects a name that is not a member of it,
while the claim's condition rejects it. -/
theorem C5_counterexample :
    shouldExtract "a" (some []) none = true ∧
    claimSelected "a" (some []) none = false := by
  decide

/-- C6: a compressed entry with declared remaining size zero writes a
single empty chunk (a zero-length destination), performs no probe,
constructs no decoder, and leaves cursor and cache untouched. -/
theorem C6_empty_entry (B : Backend) (src : ByteStream) (readBlock : Nat)
    (fileName : String) (cacheKey : Option String) (cache : WbitsCache) :
    writeCompressedEntry B src 0 readBlock fileName cacheKey cache =
      .ok { written := [[]], reads := [], stream := src, probed := false,
            decoderBuilt := false, cache := cache } := rfl

theorem registry_lowercase (zlibng isal : Bool) (id : String)
    (h : id ∈ availableBackends zlibng isal) : pyLower id = id := by
  have hs : availableBackends zlibng isal ⊆ ["zlib", "zlib-ng", "python-isal"] := by
    cases zlibng <;> cases isal <;> decide
  have h3 := hs h
  fin_cases h3 <;> decide

/-- C10: backend resolution lowercases the requested name before the
registry lookup, so a nonempty name that differs from a registered
identifier only in letter case resolves to that identifier. -/
theorem C10_case_insensitive (zlibng isal : Bool) (name id : String)
    (hmem : id ∈ availableBackends zlibng isal) (hne : name ≠ "")
    (hcase : pyLower name = pyLower id) :
    resolveBackend (availableBackends zlibng isal) (some name) = .ok id := by
  have hid : pyLower id = id := registry_lowercase zlibng isal id hmem
  simp [resolveBackend, hne, hcase, hid]
  exact hmem

/-- Witness for C10_case_insensitive: the name "ZLIB" resolves to the
default zlib backend. -/
theorem C10_case_insensitive_witness :
    resolveBackend (availableBackends false false) (some "ZLIB") =
      .ok "zlib" :=
  C10_case_insensitive false false "ZLIB" "zlib" (by decide) (by decide)
    (by decide)

/-- C8, amended: an unset or blank backend name resolves to the default
zlib backend; an unknown nonempty name fails with ValueError (the
ConfigurationError taxon) whose message lists the registered
identifiers; and in unzip this failure occurs before the central
directory is listed and before any entry is extracted, but after the
initial is_zipfile container check, which does read the archive. -/
theorem C8_backend_resolution :
    (∀ zlibng isal : Bool,
      resolveBackend (availableBackends zlibng isal) none = .ok "zlib" ∧
      resolveBackend (availableBackends zlibng isal) (some "") = .ok "zlib") ∧
    (∀ (registry : List String) (name : String), name ≠ "" →
      registry.contains (pyLower name) = false →
      resolveBackend registry (some name) =
        .error (.valueError ("Unknown backend '" ++ pyLower name ++
          "'. Available: " ++ String.intercalate ", " registry))) ∧
    (∀ (env : UnzipEnv) (registry : List String) (backend : Option String)
        (e : PyError),
      env.isZip = true → env.asyncOpenAvailable = true →
      resolveBackend registry backend = .error e →
      unzipPrelude env registry backend =
        ([.checkIsZipfile, .checkAsyncOpen, .resolveStep], some e)) := by
  refine ⟨fun zlibng isal => ⟨?_, ?_⟩, fun registry name hne hc => ?_,
    fun env registry backend e hz ha hres => ?_⟩
  · cases zlibng <;> cases isal <;> rfl
  · cases zlibng <;> cases isal <;> rfl
  · have hc2 : pyLower name ∉ registry := by simpa using hc
    simp [resolveBackend, hne, hc2]
  · simp [unzipPrelude, hz, ha, hres]

/-- Witness for C8_backend_resolution: an unknown backend on a valid
archive fails with the listing ValueError after the is_zipfile check. -/
theorem C8_backend_resolution_witness :
    unzipPrelude ⟨true, true⟩ ["zlib"] (some "bogus") =
      ([.checkIsZipfile, .checkAsyncOpen, .resolveStep],
        some (.valueError "Unknown backend 'bogus'. Available: zlib")) :=
  C8_backend_resolution.2.2 ⟨true, true⟩ ["zlib"] (some "bogus")
    (.valueError "Unknown backend 'bogus'. Available: zlib")
    rfl rfl rfl

/-- Counterexample to C8 as stated: with an unknown backend name, the
extraction call performs archive I/O (the is_zipfile container check)
before the resolution failure, and with a non-archive input the call
fails with BadZipFile, never reaching backend resolution; so the
ConfigurationError does not occur before any I/O on the archive. -/
theorem C8_counterexample :
    (unzipPrelude ⟨true, true⟩ ["zlib"] (some "nope")).2 =
      some (.valueError "Unknown backend 'nope'. Available: zlib") ∧
    (unzipPrelude ⟨true, true⟩ ["zlib"] (some "nope")).1.any
      UnzipStep.readsArchive = true ∧
    (unzipPrelude ⟨false, true⟩ ["zlib"] (some "nope")).2 =
      some (.badZipFile "") := by
  decide

theorem detectStepCache_preserves (f : Int → List Nat → Bool)
    (op : List Nat × Option String) (cache : WbitsCache) (k : String)
    (v : Int) (h : cacheGet cache k = some v) :
    cacheGet (detectStepCache f op cache) k = some v := by
  unfold detectStepCache detectWindowBits
  by_cases ht : keyTruthy op.2 = true
  · rcases hg : cacheGet cache (op.2.getD "") with _ | v2
    · rcases hp : probeWindowBits f op.1 with e2 | w
      · simp [ht, hg, hp, h]
      · have hne : op.2.getD "" ≠ k := by
          intro heq
          rw [heq, h] at hg
          exact Option.noConfusion hg
        simp only [ht, hg, hp, if_true]
        simpa [cacheGet, cacheSet, List.find?, hne] using h
    · simp [ht, hg, h]
  · rcases hp : probeWindowBits f op.1 with e2 | w
    · simp [ht, hp, h]
    · simp [ht, hp, h]

/-- C9: once a window-bits value is cached under a truthy key, a later
detection call with that key returns the cached value without running
the probe and leaves the cache unchanged; and no detection call (nor
any sequence of them within a run) removes or changes an existing cache
binding, so the mapping only grows. -/
theorem C9_cache_invariant :
    (∀ (f : Int → List Nat → Bool) (buf : List Nat) (k : String)
        (cache : WbitsCache) (v : Int),
      k ≠ "" → cacheGet cache k = some v →
      detectWindowBits f buf (some k) cache = .ok ⟨v, cache, false⟩) ∧
    (∀ (f : Int → List Nat → Bool) (op : List Nat × Option String)
        (cache : WbitsCache) (k : String) (v : Int),
      cacheGet cache k = some v →
      cacheGet (detectStepCache f op cache) k = some v) ∧
    (∀ (f : Int → List Nat → Bool) (ops : List (List Nat × Option String))
        (cache : WbitsCache) (k : String) (v : Int),
      cacheGet cache k = some v →
      cacheGet (runDetections f ops cache) k = some v) := by
  refine ⟨fun f buf k cache v hk hv => ?_, detectStepCache_preserves,
    fun f ops => ?_⟩
  · simp [detectWindowBits, keyTruthy, bne_iff_ne, hk, hv]
  · induction ops with
    | nil => intro cache k v h; simpa [runDetections] using h
    | cons op rest ih =>
      intro cache k v h
      have h1 := detectStepCache_preserves f op cache k v h
      simpa [runDetections] using ih (detectStepCache f op cache) k v h1

/-- Witness for C9_cache_invariant: a cached key is returned without
probing. -/
theorem C9_cache_invariant_witness :
    detectWindowBits (fun _ _ => false) [] (some "zlib:a.zip")
      [("zlib:a.zip", -15)] = .ok ⟨-15, [("zlib:a.zip", -15)], false⟩ :=
  C9_cache_invariant.1 (fun _ _ => false) [] "zlib:a.zip"
    [("zlib:a.zip", -15)] (-15) (by decide) (by decide)

theorem streamRead_pos (s : ByteStream) (n : Nat) :
    (streamRead s n).2 = ⟨s.data, s.pos + min n (s.data.length - s.pos)⟩ := by
  rw [streamRead_snd, streamRead_length]
  rfl

theorem writeStored_truncation (remaining : Nat) :
    ∀ (src : ByteStream) (readBlock : Nat) (fileName : String),
      src.avail < remaining →
      writeStoredEntry src remaining readBlock fileName =
        .error (.badZipFile ("Incomplete stored entry for " ++ fileName)) := by
  induction remaining using Nat.strong_induction_on with
  | _ remaining ih =>
    intro src readBlock fileName h
    have h0 : remaining ≠ 0 := by omega
    rw [writeStoredEntry.eq_def, if_neg h0]
    simp only []
    set c := if remaining > readBlock then readBlock else remaining with hc
    set r := streamRead src c with hr
    split
    · rfl
    · rename_i hq
      have hlen : r.1.length = min c src.avail := by
        rw [hr]; exact streamRead_length src c
      have hpos : 0 < r.1.length := List.length_pos.mpr hq
      have havail : r.2.avail = src.avail - r.1.length := by
        rw [hr]
        simp [streamRead, ByteStream.avail]
        omega
      rw [ih (remaining - r.1.length) (by omega) r.2 readBlock fileName (by omega)]

theorem compressedLoop_truncation (remaining : Nat) :
    ∀ (B : Backend) (fileName : String) (d : B.St) (src : ByteStream)
      (buf : List Nat) (readBlock : Nat),
      buf ≠ [] → src.avail < remaining →
      compressedLoop B fileName d src buf remaining readBlock =
        .error (.badZipFile ("Incomplete compressed entry for " ++ fileName)) := by
  induction remaining using Nat.strong_induction_on with
  | _ remaining ih =>
    intro B fileName d src buf readBlock hbuf h
    have h0 : remaining ≠ 0 := by omega
    rw [compressedLoop.eq_def, if_neg hbuf]
    simp only []
    rw [if_neg h0]
    set c := if remaining > readBlock then readBlock else remaining with hc
    set r := streamRead src c with hr
    split
    · rfl
    · rename_i hq
      have hlen : r.1.length = min c src.avail := by
        rw [hr]; exact streamRead_length src c
      have hpos : 0 < r.1.length := List.length_pos.mpr hq
      have havail : r.2.avail = src.avail - r.1.length := by
        rw [hr]
        simp [streamRead, ByteStream.avail]
        omega
      rw [ih (remaining - r.1.length) (by omega) B fileName
        (B.decompress d buf).1 r.2 r.1 readBlock hq (by omega)]

theorem detect_ok_of_accepted (f : Int → List Nat → Bool) (buf : List Nat)
    (cacheKey : Option String) (cache : WbitsCache)
    (h : ∃ w ∈ windowBitsCandidates, ∀ bb : List Nat, f w bb = true) :
    ∃ out, detectWindowBits f buf cacheKey cache = .ok out := by
  obtain ⟨w, hmem, hw⟩ := h
  have hprobe : ∃ w2, probeWindowBits f buf = .ok w2 := by
    unfold probeWindowBits
    rcases hf : windowBitsCandidates.find? (fun x => f x buf) with _ | w2
    · exfalso
      have := List.find?_eq_none.mp hf w hmem
      rw [hw buf] at this
      exact this rfl
    · exact ⟨w2, rfl⟩
  obtain ⟨w2, hp⟩ := hprobe
  unfold detectWindowBits
  rcases hg : (if keyTruthy cacheKey then cacheGet cache (cacheKey.getD "")
      else none) with _ | v
  · rw [hp]
    exact ⟨_, rfl⟩
  · exact ⟨_, rfl⟩

theorem writeCompressed_truncation (B : Backend) (src : ByteStream)
    (remaining readBlock : Nat) (fileName : String) (cacheKey : Option String)
    (cache : WbitsCache) (h : src.avail < remaining)
    (hacc : ∃ w ∈ windowBitsCandidates,
      ∀ bb : List Nat, B.tryDecode w bb = true) :
    writeCompressedEntry B src remaining readBlock fileName cacheKey cache =
      .error (.badZipFile ("Incomplete compressed entry for " ++ fileName)) := by
  have h0 : remaining ≠ 0 := by omega
  unfold writeCompressedEntry
  rw [if_neg h0]
  simp only []
  set c := if remaining > readBlock then readBlock else remaining with hc
  set r := streamRead src c with hr
  have hlen : r.1.length = min c src.avail := by
    rw [hr]; exact streamRead_length src c
  by_cases hq : r.1 = []
  · rw [if_pos hq]
  · rw [if_neg hq]
    obtain ⟨out, hout⟩ := detect_ok_of_accepted B.tryDecode r.1 cacheKey cache hacc
    rw [hout]
    simp only []
    have hpos : 0 < r.1.length := List.length_pos.mpr hq
    have havail : r.2.avail = src.avail - r.1.length := by
      rw [hr]
      simp [streamRead, ByteStream.avail]
      omega
    rw [compressedLoop_truncation (remaining - r.1.length) B fileName
      (B.factory out.wbits) r.2 r.1 readBlock hq (by omega)]

/-- C2, amended: when the source runs out of bytes while the declared
remaining size is still positive (a read returning zero bytes), both
the stored and the compressed copy operations fail with a truncation
error; that error is raised as BadZipFile carrying an
"Incomplete ... entry" message, the same exception class used for
format errors, distinguished from them only by its message text. For
the compressed path, the probe must have accepted the first chunk (else
the decode-probe error surfaces first). -/
theorem C2_truncation :
    (∀ (src : ByteStream) (remaining readBlock : Nat) (fileName : String),
      src.avail < remaining →
      writeStoredEntry src remaining readBlock fileName =
        .error (.badZipFile ("Incomplete stored entry for " ++ fileName))) ∧
    (∀ (B : Backend) (src : ByteStream) (remaining readBlock : Nat)
        (fileName : String) (cacheKey : Option String) (cache : WbitsCache),
      src.avail < remaining →
      (∃ w ∈ windowBitsCandidates,
        ∀ bb : List Nat, B.tryDecode w bb = true) →
      writeCompressedEntry B src remaining readBlock fileName cacheKey cache =
        .error (.badZipFile ("Incomplete compressed entry for " ++ fileName))) :=
  ⟨fun src remaining readBlock fileName h =>
      writeStored_truncation remaining src readBlock fileName h,
    fun B src remaining readBlock fileName cacheKey cache h hacc =>
      writeCompressed_truncation B src remaining readBlock fileName cacheKey
        cache h hacc⟩

/-- Witness for C2_truncation: an entry declaring size 10 over a source
of 4 bytes fails with the truncation error on both paths. -/
theorem C2_truncation_witness :
    writeStoredEntry ⟨[1, 2, 3, 4], 0⟩ 10 4 "f" =
      .error (.badZipFile "Incomplete stored entry for f") ∧
    writeCompressedEntry trivialBackend ⟨[1, 2, 3, 4], 0⟩ 10 4 "f" none [] =
      .error (.badZipFile "Incomplete compressed entry for f") :=
  ⟨C2_truncation.1 ⟨[1, 2, 3, 4], 0⟩ 10 4 "f" (by decide),
    C2_truncation.2 trivialBackend ⟨[1, 2, 3, 4], 0⟩ 10 4 "f" none []
      (by decide) ⟨-15, by decide, fun _ => rfl⟩⟩

/-- Counterexample to C2 as stated: the truncation failure on the
size-10, 4-byte input is raised as BadZipFile, the same exception class
that carries the FormatError taxon (for example the invalid-local-header
failure), so it is not a distinct error kind; only the message text
differs. -/
theorem C2_counterexample :
    writeStoredEntry ⟨[9, 9, 9, 9], 0⟩ 10 32768 "g" =
      .error (.badZipFile "Incomplete stored entry for g") ∧
    readLocalHeader ⟨[], 0⟩ "g" =
      .error (.badZipFile "Invalid local header for g") ∧
    (PyError.badZipFile "Incomplete stored entry for g").cls =
      (PyError.badZipFile "Invalid local header for g").cls ∧
    isFormatErrorClass (.badZipFile "Incomplete stored entry for g") = true := by
  refine ⟨?_, rfl, rfl, rfl⟩
  simp [writeStoredEntry, streamRead]

/-- C3, amended: the Entry Reader fails with the BadZipFile format
error exactly when fewer than 30 bytes are available or the first 4
bytes differ from the signature 50 4B 03 04; otherwise it parses the
little-endian filename and extra-field lengths at offsets 26-27 and
28-29 and advances the cursor past them, by exactly that many further
bytes when the source provides them and clamped at end of data when it
does not (the short reads are not checked). -/
theorem C3_local_header (src : ByteStream) (fileName : String) :
    (src.avail < 30 ∨
        (src.data.drop src.pos).take 4 ≠ LOCAL_FILE_HEADER_SIGNATURE →
      readLocalHeader src fileName =
        .error (.badZipFile ("Invalid local header for " ++ fileName))) ∧
    (30 ≤ src.avail →
      (src.data.drop src.pos).take 4 = LOCAL_FILE_HEADER_SIGNATURE →
      readLocalHeader src fileName =
        .ok ⟨src.data,
          min (src.pos + 30 + headerNameLen src + headerExtraLen src)
            src.data.length⟩) := by
  have hh1 : (streamRead src LOCAL_FILE_HEADER_SIZE).1 =
      (src.data.drop src.pos).take 30 := rfl
  have hlen30 : (streamRead src LOCAL_FILE_HEADER_SIZE).1.length =
      min 30 src.avail := streamRead_length src 30
  have hav : src.avail = src.data.length - src.pos := rfl
  constructor
  · intro h
    simp only [readLocalHeader]
    split_ifs with hcond
    · rfl
    · exfalso
      push_neg at hcond
      obtain ⟨hl, hs⟩ := hcond
      rcases h with h | h
      · rw [hlen30] at hl
        simp [LOCAL_FILE_HEADER_SIZE] at hl
        omega
      · apply h
        rw [← hs, hh1, List.take_take]
        norm_num
  · intro h30 hsig
    have hA : (streamRead src LOCAL_FILE_HEADER_SIZE).1.length =
        LOCAL_FILE_HEADER_SIZE := by
      rw [hlen30]
      simp [LOCAL_FILE_HEADER_SIZE]
      omega
    have hB : (streamRead src LOCAL_FILE_HEADER_SIZE).1.take 4 =
        LOCAL_FILE_HEADER_SIGNATURE := by
      rw [hh1, List.take_take]
      simpa using hsig
    have hh2 : (streamRead src LOCAL_FILE_HEADER_SIZE).2 =
        ⟨src.data, src.pos + 30⟩ := by
      rw [streamRead_snd, hA]
      rfl
    simp only [readLocalHeader]
    rw [if_neg (by push_neg; exact ⟨hA, hB⟩)]
    rw [hh1, hh2]
    have hnL : intFromBytesLE
        ((((src.data.drop src.pos).take 30).drop 26).take 2) =
        headerNameLen src := rfl
    have heL : intFromBytesLE
        ((((src.data.drop src.pos).take 30).drop 28).take 2) =
        headerExtraLen src := rfl
    rw [hnL, heL]
    by_cases h1 : headerNameLen src ≠ 0 <;>
      [rw [if_pos h1]; rw [if_neg h1]] <;>
      simp only [streamRead_pos] <;>
      (by_cases h2 : headerExtraLen src ≠ 0 <;>
        [rw [if_pos h2]; rw [if_neg h2]]) <;>
      simp only [streamRead_pos, Except.ok.injEq, ByteStream.mk.injEq,
        true_and] <;>
      omega

/-- Witness for C3_local_header: a complete header with a 2-byte
filename and a 1-byte extra field is consumed in full. -/
theorem C3_local_header_witness :
    readLocalHeader ⟨fullHeaderData, 0⟩ "g" =
      .ok ⟨fullHeaderData,
        min (0 + 30 + headerNameLen ⟨fullHeaderData, 0⟩ +
          headerExtraLen ⟨fullHeaderData, 0⟩) fullHeaderData.length⟩ :=
  (C3_local_header ⟨fullHeaderData, 0⟩ "g").2 (by decide) (by decide)

/-- Counterexample to C3 as stated: a valid header declaring a 5-byte
filename over a source with only 1 byte past the header succeeds while
consuming only that 1 byte, not exactly the declared 5, because the
short read is not checked. -/
theorem C3_counterexample :
    readLocalHeader ⟨shortTailData, 0⟩ "f" = .ok ⟨shortTailData, 31⟩ ∧
    headerNameLen ⟨shortTailData, 0⟩ = 5 ∧
    headerExtraLen ⟨shortTailData, 0⟩ = 0 ∧
    (31 : Nat) ≠ 0 + 30 + 5 + 0 :=
  ⟨rfl, by decide, by decide, by decide⟩

/-- C7: for a stored entry of N bytes whose source region is present
and any positive chunk size, the copy writes exactly the N source
bytes, every read requests at most the chunk size, and the cursor ends
exactly N bytes further (the remaining count reaches zero). -/
theorem C7_stored_roundtrip (remaining : Nat) :
    ∀ (src : ByteStream) (readBlock : Nat) (fileName : String),
      0 < readBlock → remaining ≤ src.avail →
      ∃ ws reads s2,
        writeStoredEntry src remaining readBlock fileName =
          .ok (ws, reads, s2) ∧
        ws.flatten = (src.data.drop src.pos).take remaining ∧
        ws.flatten.length = remaining ∧
        (∀ q ∈ reads, q ≤ readBlock) ∧
        s2.data = src.data ∧ s2.pos = src.pos + remaining := by
  induction remaining using Nat.strong_induction_on with
  | _ remaining ih =>
    intro src readBlock fileName hrb h
    by_cases h0 : remaining = 0
    · subst h0
      refine ⟨[], [], src, ?_, by simp, by simp, by simp, rfl, by omega⟩
      rw [writeStoredEntry.eq_def]
      simp
    · rw [writeStoredEntry.eq_def, if_neg h0]
      simp only []
      set c := if remaining > readBlock then readBlock else remaining with hc
      set r := streamRead src c with hr
      obtain ⟨hc1, hc2, hc3⟩ : c ≤ readBlock ∧ c ≤ remaining ∧ 0 < c := by
        rw [hc]; split <;> omega
      have hlen : r.1.length = min c src.avail := by
        rw [hr]; exact streamRead_length src c
      have hlc : r.1.length = c := by omega
      have hne : ¬ r.1 = [] := by
        intro he
        rw [he] at hlc
        simp at hlc
        omega
      rw [dif_neg hne]
      have hr2 : r.2 = ⟨src.data, src.pos + r.1.length⟩ := by
        rw [hr]; exact streamRead_snd src c
      have hr1 : r.1 = (src.data.drop src.pos).take c := by
        rw [hr]; rfl
      have havail : r.2.avail = src.avail - r.1.length := by
        rw [hr2]
        simp [ByteStream.avail]
        omega
      obtain ⟨ws, reads, s2, heq, hflat, hflen, hreads, hdata, hpos⟩ :=
        ih (remaining - r.1.length) (by omega) r.2 readBlock fileName hrb
          (by omega)
      rw [heq]
      refine ⟨r.1 :: ws, c :: reads, s2, rfl, ?_, ?_, ?_, ?_, ?_⟩
      · rw [List.flatten_cons, hflat]
        simp only [hr2]
        rw [hlc, hr1]
        rw [← List.drop_drop, ← List.take_add, Nat.add_sub_cancel' hc2]
      · rw [List.flatten_cons, List.length_append, hflen, hlc]
        omega
      · intro q hqmem
        rcases List.mem_cons.mp hqmem with hq1 | hq2
        · omega
        · exact hreads q hq2
      · rw [hdata]
        simp [hr2]
      · rw [hpos]
        simp only [hr2]
        omega

/-- Witness for C7_stored_roundtrip: a 3-byte stored entry copied with
chunk size 2 from a 4-byte source. -/
theorem C7_stored_roundtrip_witness :
    0 < 2 ∧ 3 ≤ (⟨[5, 6, 7, 9], 0⟩ : ByteStream).avail ∧
    ∃ ws reads s2,
      writeStoredEntry ⟨[5, 6, 7, 9], 0⟩ 3 2 "f" = .ok (ws, reads, s2) ∧
      ws.flatten = (([5, 6, 7, 9] : List Nat).drop 0).take 3 ∧
      ws.flatten.length = 3 ∧
      (∀ q ∈ reads, q ≤ 2) ∧
      s2.data = [5, 6, 7, 9] ∧ s2.pos = 0 + 3 :=
  ⟨by decide, by decide,
    C7_stored_roundtrip 3 ⟨[5, 6, 7, 9], 0⟩ 2 "f" (by decide) (by decide)⟩

end AsyncUnzip
